import Mathlib

/-!
Shallow embedding of the query and classification engine of
`pyam_analysis/core.py` (class `IamDataFrame` together with the auxiliary
filter functions `keep_col_match` and `keep_col_yr`), and proofs about the
claims of its specification.

Modelling conventions:
* an observation row of the long-format data table is a Lean structure;
  the numeric payload is `ℚ` (exact rationals stand in for Python floats);
* a Python dict used as a filter specification is an association list
  `List (String × FVal)`; `dict_set` mirrors dict item assignment
  (overwrite in place if the key exists, append otherwise);
* dynamically typed filter values (`str`, `int`, list, `range`) are the
  tagged variant `FVal`;
* fallible calls (`raise SystemError`, and patterns that fall outside the
  regex fragment modelled here) return `Except String`;
* the fragment of Python regular expressions that `keep_col_match` can
  produce is modelled by `RTok` / `re_match`: literal characters, `.`
  (any character except newline), `.*` (obtained from the `*` wildcard),
  and the end anchor `$` (which in Python also matches just before one
  trailing newline).  Patterns containing other metacharacters are outside
  the fragment and are reported as errors by the embedding;
* `pandas` deduplication (`drop_duplicates`, `groupby` keys, index
  intersection) is modelled with `List.dedup`; the claims under study only
  concern membership in the deduplicated results, not their order.
-/

namespace Pyam

/-- One row of the long-format data table: the six axis labels and the
numeric value (`core.py` keeps columns model, scenario, region, variable,
unit, year, value after `read_data`). -/
structure Observation where
  model : String
  scenario : String
  region : String
  var : String
  unit : String
  year : Int
  value : ℚ
deriving DecidableEq

/-- Tagged variant for the dynamically typed values of a Python filter
dict: a string, a list of strings, an int, a list of ints, or a two-argument
`range(lo, hi)`. -/
inductive FVal where
  | str (s : String)
  | strList (ss : List String)
  | int (n : Int)
  | intList (ns : List Int)
  | range (lo hi : Int)
deriving DecidableEq

/-- Token of the modelled fragment of Python regular expressions. -/
inductive RTok where
  | lit (c : Char)
  | anyc
  | star
deriving DecidableEq

/-- Regex metacharacters (other than `*`, `.` and the bar, which are handled
separately) whose appearance puts a pattern outside the modelled fragment. -/
def regex_meta : List Char := ['^', '$', '+', '?', '\x7b', '\x7d', '[', ']', '(', ')', '\\']

/-- Tokenisation of one character of a pattern built by `keep_col_match`
with `pseudo_regex=True`: the source escapes `|`, turns `*` into `.*` and
appends `$`; a `.` already present in the string keeps its regex meaning
(only `|` is escaped!). -/
def pseudo_tok (c : Char) : Option RTok :=
  if c == '*' then some RTok.star
  else if c == '.' then some RTok.anyc
  else if regex_meta.contains c then none
  else some (RTok.lit c)

/-- Tokenisation of one character of a raw pattern (`pseudo_regex=False`):
the string is compiled as a regex unchanged, so `*`, `|` and the other
metacharacters put it outside the modelled fragment. -/
def raw_tok (c : Char) : Option RTok :=
  if c == '.' then some RTok.anyc
  else if c == '*' || c == '|' || regex_meta.contains c then none
  else some (RTok.lit c)

/-- Tokenise a whole character list, failing outside the fragment. -/
def tok_list (f : Char → Option RTok) : List Char → Option (List RTok)
  | [] => some []
  | c :: cs =>
    match f c, tok_list f cs with
    | some t, some ts => some (t :: ts)
    | _, _ => none

/-- Python `$` (no MULTILINE): at the very end, or just before one trailing
newline.  With `anch = false` there is no anchor (a bare `re.match` only
requires a match at the start of the string). -/
def dollar_match (anch : Bool) (cs : List Char) : Bool :=
  if anch then
    match cs with
    | [] => true
    | [c] => c == '\n'
    | _ => false
  else true

/-- Suffixes reachable from `cs` by letting `.*` consume a (possibly empty)
run of non-newline characters. -/
def star_drops : List Char → List (List Char)
  | [] => [[]]
  | c :: cs => (c :: cs) :: (if c == '\n' then [] else star_drops cs)

/-- Matching of a token list against a character list, starting at the
beginning of the string (Python `re.match`); `anch` records whether the
pattern carries the trailing `$` that `keep_col_match` appends in
pseudo-regex mode. -/
def re_match (anch : Bool) : List RTok → List Char → Bool
  | [], cs => dollar_match anch cs
  | RTok.lit _ :: _, [] => false
  | RTok.lit c :: ts, d :: cs => d == c && re_match anch ts cs
  | RTok.anyc :: _, [] => false
  | RTok.anyc :: ts, d :: cs => !(d == '\n') && re_match anch ts cs
  | RTok.star :: ts, cs => (star_drops cs).any (fun cs2 => re_match anch ts cs2)

/-- Compile one pattern string as `keep_col_match` does: in pseudo-regex
mode `|` is escaped, `*` becomes `.*` and the `$` anchor is added (recorded
in the `anch` flag of `re_match`); otherwise the string is compiled raw. -/
def compile_tokens (s : String) (pseudo : Bool) : Except String (List RTok) :=
  match (if pseudo then tok_list pseudo_tok s.data else tok_list raw_tok s.data) with
  | some ts => Except.ok ts
  | none => Except.error ("pattern outside the modelled regex fragment: " ++ s)

/-- Strings accepted by `keep_col_match`: a single string or a list of strings
(`isinstance(strings, str)` wraps a single string into a list); any other
value makes the iteration / `re.compile` raise. -/
def fval_strings : FVal → Except String (List String)
  | FVal.str s => Except.ok [s]
  | FVal.strList ss => Except.ok ss
  | _ => Except.error ("keep_col_match requires a string or a list of strings")

/-- Loop of `keep_col_match`: one pass per pattern string, OR-ing the mask
of column entries matched by that pattern into the accumulator (the source
computes the matching subset with `filter(pattern.match, col)` and then
`col.isin(subset)`, which flags exactly the entries the pattern matches). -/
def keep_col_match_loop (col : List String) (pseudo : Bool) :
    List String → List Bool → Except String (List Bool)
  | [], keep => Except.ok keep
  | s :: rest, keep =>
    match compile_tokens s pseudo with
    | Except.error e => Except.error e
    | Except.ok ts =>
      keep_col_match_loop col pseudo rest
        (List.zipWith or keep (col.map (fun v => re_match pseudo ts v.data)))

/-- Embedding of `keep_col_match(col, strings, pseudo_regex)`: matching of
model/scenario/region names (raw) and variables (pseudo-regex) for data
filtering, starting from an all-false mask. -/
def keep_col_match (col : List String) (strings : FVal) (pseudo : Bool) :
    Except String (List Bool) :=
  match fval_strings strings with
  | Except.error e => Except.error e
  | Except.ok ss => keep_col_match_loop col pseudo ss (List.replicate col.length false)

/-- Embedding of `keep_col_yr(col, yrs)`: an `int` filters by equality, a
list or a `range` by membership (`range(lo, hi)` contains exactly the
integers `lo ≤ y < hi`; a list of strings contains no integer, so its mask
is all false), anything else raises. -/
def keep_col_yr (col : List Int) (yrs : FVal) : Except String (List Bool) :=
  match yrs with
  | FVal.int n => Except.ok (col.map (fun y => y == n))
  | FVal.intList ns => Except.ok (col.map (fun y => ns.contains y))
  | FVal.strList _ => Except.ok (col.map (fun _ => false))
  | FVal.range a b => Except.ok (col.map (fun y => decide (a ≤ y) && decide (y < b)))
  | FVal.str s =>
    Except.error ("filtering for years by " ++ s ++ " not supported," ++ "must be int, list or range")

/-- Column accessor for the three raw-matched axes. -/
def axis_get (col : String) (o : Observation) : String :=
  if col == "model" then o.model else if col == "scenario" then o.scenario else o.region

/-- Per-axis dispatch of `IamDataFrame.select`: model/scenario/region are
raw-matched, variable is pseudo-regex-matched, year goes to `keep_col_yr`,
and any other column name raises `SystemError`. -/
def keep_col (data : List Observation) (col : String) (v : FVal) :
    Except String (List Bool) :=
  if col == "model" || col == "scenario" || col == "region" then
    keep_col_match (data.map (axis_get col)) v false
  else if col == "variable" then
    keep_col_match (data.map (fun o => o.var)) v true
  else if col == "year" then
    keep_col_yr (data.map (fun o => o.year)) v
  else Except.error ("filter by column " ++ col ++ " not supported")

/-- Loop of `select` over the filter dict items, AND-ing the per-axis masks
into the accumulated keep mask. -/
def select_mask_loop (data : List Observation) :
    List (String × FVal) → List Bool → Except String (List Bool)
  | [], keep => Except.ok keep
  | (c, v) :: rest, keep =>
    match keep_col data c v with
    | Except.error e => Except.error e
    | Except.ok kc => select_mask_loop data rest (List.zipWith and keep kc)

/-- Keep the rows flagged `true` by the mask (`self.data[keep]`). -/
def apply_mask : List Observation → List Bool → List Observation
  | [], _ => []
  | _ :: _, [] => []
  | o :: os, b :: bs => if b then o :: apply_mask os bs else apply_mask os bs

/-- Embedding of `IamDataFrame.select(filters)` (no column projection, the
form every caller in the claims uses): the keep mask starts all true and is
AND-ed with one mask per filter item. -/
def select (data : List Observation) (filters : List (String × FVal)) :
    Except String (List Observation) :=
  match select_mask_loop data filters (List.replicate data.length true) with
  | Except.error e => Except.error e
  | Except.ok keep => Except.ok (apply_mask data keep)

/-- Python dict item assignment `d[k] = v`: overwrite in place when the key
is present, append otherwise. -/
def dict_set (d : List (String × FVal)) (k : String) (v : FVal) : List (String × FVal) :=
  if d.any (fun p => p.1 == k) then d.map (fun p => if p.1 == k then (k, v) else p)
  else d ++ [(k, v)]

/-- A check dict of `check`/`validate`/`category`: optional inclusive upper
bound `up`, optional exclusive lower bound `lo`, optional year filter. -/
structure CheckSpec where
  up : Option ℚ
  lo : Option ℚ
  year : Option FVal
deriving DecidableEq

/-- The filter dict actually passed to `select` by `check`: the caller's
dict (or a fresh empty one) with `check['year']` overlaid when present and
the variable axis forced. -/
def effective_filters (filters : List (String × FVal)) (c : CheckSpec) (v : String) :
    List (String × FVal) :=
  dict_set
    (match c.year with
     | some y => dict_set filters "year" y
     | none => filters) "variable" (FVal.str v)

/-- Contents of the caller's filters dict after `check` returns: a falsy
(empty/absent) dict is rebound to a fresh `{}` and the caller's value is
untouched, but a non-empty caller-supplied dict receives the `year` and
`variable` assignments in place (lines 254-258 of `core.py`). -/
def check_filters_after (filters : List (String × FVal)) (c : CheckSpec) (v : String) :
    List (String × FVal) :=
  if filters.isEmpty then filters else effective_filters filters c v

/-- Per-row satisfaction flag of `check`: starts true, AND-ed with
`value <= up` when `up` is present and with `value > lo` when `lo` is
present. -/
def row_is_true (c : CheckSpec) (v : ℚ) : Bool :=
  (match c.up with
   | some u => decide (v ≤ u)
   | none => true) &&
  (match c.lo with
   | some l => decide (l < v)
   | none => true)

/-- Entity key of a row: its (model, scenario) pair. -/
def okey (o : Observation) : String × String := (o.model, o.scenario)

/-- Rows of the selection that satisfy the bound check. -/
def sat_rows (d : List Observation) (c : CheckSpec) : List Observation :=
  d.filter (fun o => row_is_true c o.value)

/-- Embedding of `len(df.year.drop_duplicates())`: number of distinct years in the
filtered, pre-satisfaction selection. -/
def num_yr (d : List Observation) : Nat := (d.map (fun o => o.year)).dedup.length

/-- Size of the groupby-count cell for an entity key: the number of
satisfying rows carrying that key (the source counts rows, it does not
deduplicate years first). -/
def count_sat (d : List Observation) (c : CheckSpec) (k : String × String) : Nat :=
  (sat_rows d c).countP (fun o => okey o == k)

/-- Whether the check dict carries a single-integer year constraint
(`isinstance(check['year'], int)`). -/
def is_year_int (c : CheckSpec) : Bool :=
  match c.year with
  | some (FVal.int _) => true
  | _ => false

/-- Entity keys returned by `check` in satisfying mode, computed from the
selected rows: with a single-integer year the satisfying rows are
deduplicated and keyed by (model, scenario); otherwise the groupby row
count must equal the number of distinct years of the selection. -/
def check_keys_of (d : List Observation) (c : CheckSpec) : List (String × String) :=
  if is_year_int c then ((sat_rows d c).map okey).dedup
  else (((sat_rows d c).map okey).dedup).filter (fun k => count_sat d c k == num_yr d)

/-- The selection built by `check` (step `df = self.select(filters)`). -/
def check_rows (data : List Observation) (v : String) (c : CheckSpec)
    (filters : List (String × FVal)) : Except String (List Observation) :=
  select data (effective_filters filters c v)

/-- Satisfying-mode result of `check` (`ret_true=True`), as the (model,
scenario) index it hands to `category`. -/
def check_keys (data : List Observation) (v : String) (c : CheckSpec)
    (filters : List (String × FVal)) : Except String (List (String × String)) :=
  match check_rows data v c filters with
  | Except.error e => Except.error e
  | Except.ok d => Except.ok (check_keys_of d c)

/-- Non-satisfying-mode result of `check` (`ret_true=False`): the selected
rows that fail the bound check, all columns intact. -/
def check_false_rows (data : List Observation) (v : String) (c : CheckSpec)
    (filters : List (String × FVal)) : Except String (List Observation) :=
  match check_rows data v c filters with
  | Except.error e => Except.error e
  | Except.ok d => Except.ok (d.filter (fun o => !(row_is_true c o.value)))

/-- The session object: the loaded data together with the category
assignment table `self.cat` (one entry per distinct entity key, label
initially unset). -/
structure IamDataFrame where
  data : List Observation
  cat : List ((String × String) × Option String)
deriving DecidableEq

/-- Embedding of `__init__`: the category table holds every distinct entity key of the
data, with no label assigned. -/
def IamDataFrame.ofData (data : List Observation) : IamDataFrame :=
  IamDataFrame.mk data (((data.map okey).dedup).map (fun k => (k, none)))

/-- The entity keys of the category table (`self.cat.index`). -/
def cat_index (df : IamDataFrame) : List (String × String) := df.cat.map Prod.fst

/-- Label recorded for an entity key in the category table (`none` when the
key is absent, `some none` when present but unlabelled). -/
def cat_label (df : IamDataFrame) (k : String × String) : Option (Option String) :=
  (df.cat.find? (fun p => p.1 == k)).map (fun p => p.2)

/-- Overwrite the category label of every listed key
(`self.cat.loc[cat, 'category'] = name`). -/
def assign_cat (cat : List ((String × String) × Option String))
    (ks : List (String × String)) (name : String) :
    List ((String × String) × Option String) :=
  cat.map (fun p => if p.1 ∈ ks then (p.1, some name) else p)

/-- Intersection loop of `category`: starting from the full entity-key
index, intersect with the satisfying keys of each (variable, check) pair.
The same filters dict object is passed to every `check` call, so the
in-place mutations of one call are visible to the next
(`check_filters_after` threads that state). -/
def qualifying_loop (data : List Observation) :
    List (String × CheckSpec) → List (String × String) → List (String × FVal) →
    Except String (List (String × String))
  | [], acc, _ => Except.ok acc
  | (v, c) :: rest, acc, fs =>
    match check_keys data v c fs with
    | Except.error e => Except.error e
    | Except.ok ks =>
      qualifying_loop data rest (acc.filter (fun k => k ∈ ks)) (check_filters_after fs c v)

/-- Entity keys qualifying for a category: the intersection over all
criteria of the per-variable satisfying key sets, within the key index. -/
def qualifying_keys (data : List Observation) (cat0 : List (String × String))
    (criteria : List (String × CheckSpec)) (filters : List (String × FVal)) :
    Except String (List (String × String)) :=
  qualifying_loop data criteria cat0 filters

/-- Embedding of `IamDataFrame.category(name, criteria, filters)` with the
default `assign=True`: with no criteria it is a read (frame unchanged); with
criteria, the qualifying keys are computed and, when some exist, their
labels are overwritten and the caller is shown the categorised scenarios;
when none exist nothing is mutated and the caller is informed.  The second
component is the message printed to the caller. -/
def category (df : IamDataFrame) (name : String)
    (criteria : List (String × CheckSpec)) (filters : List (String × FVal)) :
    Except String (IamDataFrame × Option String) :=
  if criteria.isEmpty then Except.ok (df, none)
  else
    match qualifying_keys df.data (cat_index df) criteria filters with
    | Except.error e => Except.error e
    | Except.ok ks =>
      if ks.isEmpty then Except.ok (df, some ("No scenario satisfies the criteria"))
      else
        Except.ok (IamDataFrame.mk df.data (assign_cat df.cat ks name),
          some ("The following scenarios are categorized as " ++ name))

/-- A character that the pseudo-regex construction treats as a plain
literal: not the wildcard `*`, not `.`, and not one of the unescaped
metacharacters (the bar is fine, the source escapes it). -/
def plain_char (c : Char) : Bool :=
  !(c == '*' || c == '.' || regex_meta.contains c)

/-- Stated from the spec words of claim C1 (not from the code): the number
of distinct years in which an entity key has a satisfying row. -/
def spec_distinct_sat_years (d : List Observation) (c : CheckSpec) (k : String × String) :
    Nat :=
  (((sat_rows d c).filter (fun o => okey o == k)).map (fun o => o.year)).dedup.length

/-- Concrete rows used by the example theorems. -/
def obs_a : Observation := ⟨"m1", "s1", "r1", "V", "EJ", 2010, 5⟩

def obs_b : Observation := ⟨"m1", "s1", "r2", "V", "EJ", 2010, 6⟩

def obs_c : Observation := ⟨"m1", "s1", "r1", "V", "EJ", 2020, 99⟩

/-- Two satisfying rows in 2010 (two regions) and one failing row in
2020. -/
def data_cx : List Observation := [obs_a, obs_b, obs_c]

/-- One row per year over four years, all satisfying an upper bound of
10. -/
def data_y4 : List Observation :=
  [⟨"m1", "s1", "r1", "V", "EJ", 2010, 1⟩,
   ⟨"m1", "s1", "r1", "V", "EJ", 2020, 2⟩,
   ⟨"m1", "s1", "r1", "V", "EJ", 2030, 3⟩,
   ⟨"m1", "s1", "r1", "V", "EJ", 2040, 4⟩]

/-- Check dict with only an inclusive upper bound of 10. -/
def check_up10 : CheckSpec := ⟨some 10, none, none⟩

/-- Check dict and non-empty caller filters dict used to exhibit the
in-place mutation performed by `check`. -/
def c4_spec : CheckSpec := ⟨some 10, none, some (FVal.int 2010)⟩

def c4_filters : List (String × FVal) := [(("region"), FVal.str ("World"))]

/-- Session over the single row `obs_a`. -/
def df0_w : IamDataFrame := IamDataFrame.ofData [obs_a]

/-- Criteria mappings used by the category example theorems. -/
def crit_up10 : List (String × CheckSpec) := [(("V"), ⟨some 10, none, none⟩)]

def crit_up20 : List (String × CheckSpec) := [(("V"), ⟨some 20, none, none⟩)]

/-- Unsatisfiable criteria: value at most 10 and strictly above 20. -/
def crit_none : List (String × CheckSpec) := [(("V"), ⟨some 10, some 20, none⟩)]

/-- The session `df0_w` after its key has been assigned category A, B or
X. -/
def df1_a : IamDataFrame := IamDataFrame.mk [obs_a] [((("m1"), ("s1")), some ("A"))]

def df2_b : IamDataFrame := IamDataFrame.mk [obs_a] [((("m1"), ("s1")), some ("B"))]

def df1_x : IamDataFrame := IamDataFrame.mk [obs_a] [((("m1"), ("s1")), some ("X"))]

/-! Helper lemmas about the mask plumbing of `select`. -/

theorem zip_and_replicate_true (bs : List Bool) (n : Nat) (h : n = bs.length) :
    List.zipWith and (List.replicate n true) bs = bs := by
  subst h
  induction bs with
  | nil => rfl
  | cons b bs ih => simpa [List.replicate] using ih

theorem zip_or_replicate_false (bs : List Bool) (n : Nat) (h : n = bs.length) :
    List.zipWith or (List.replicate n false) bs = bs := by
  subst h
  induction bs with
  | nil => rfl
  | cons b bs ih => simpa [List.replicate] using ih

theorem apply_mask_map (data : List Observation) (f : Observation → Bool) :
    apply_mask data (data.map f) = data.filter f := by
  induction data with
  | nil => rfl
  | cons o os ih => by_cases h : f o <;> simp [apply_mask, List.filter_cons, h, ih]

theorem map_const_false (xs : List Observation) :
    xs.map (fun _ => false) = List.replicate xs.length false := by
  induction xs with
  | nil => rfl
  | cons x xs ih => simp [List.replicate, ih]

/-- Running `select` with a single filter item whose mask is `data.map f` keeps
exactly the rows satisfying `f`. -/
theorem select_single_ok (data : List Observation) (col : String) (v : FVal)
    (f : Observation → Bool) (h : keep_col data col v = Except.ok (data.map f)) :
    select data [(col, v)] = Except.ok (data.filter f) := by
  have hlen : data.length = (data.map f).length := (List.length_map data f).symm
  simp only [select, select_mask_loop, h,
    zip_and_replicate_true (data.map f) data.length hlen, apply_mask_map]

/-- Running `select` with a single filter item propagates the error of its axis
mask. -/
theorem select_single_err (data : List Observation) (col : String) (v : FVal)
    (e : String) (h : keep_col data col v = Except.error e) :
    select data [(col, v)] = Except.error e := by
  simp only [select, select_mask_loop, h]

/-! Reduction of the axis dispatch of `select` at the five known column
names. -/

theorem keep_col_model (data : List Observation) (v : FVal) :
    keep_col data ("model") v = keep_col_match (data.map (axis_get ("model"))) v false := rfl

theorem keep_col_scenario (data : List Observation) (v : FVal) :
    keep_col data ("scenario") v = keep_col_match (data.map (axis_get ("scenario"))) v false := rfl

theorem keep_col_region (data : List Observation) (v : FVal) :
    keep_col data ("region") v = keep_col_match (data.map (axis_get ("region"))) v false := rfl

theorem keep_col_variable (data : List Observation) (v : FVal) :
    keep_col data ("variable") v = keep_col_match (data.map (fun o => o.var)) v true := rfl

theorem keep_col_year (data : List Observation) (v : FVal) :
    keep_col data ("year") v = keep_col_yr (data.map (fun o => o.year)) v := rfl

/-- C8.  A single-integer year filter selects exactly the rows with that
year; a list or a half-open `range(a, b)` selects by membership; a year
filter of any other type (here: a string) makes `select` fail with an
error instead of being ignored. -/
theorem claim8_year_filter_semantics (data : List Observation) (n a b : Int)
    (ns : List Int) (s : String) :
    select data [(("year"), FVal.int n)] =
      Except.ok (data.filter (fun o => o.year == n)) ∧
    select data [(("year"), FVal.intList ns)] =
      Except.ok (data.filter (fun o => ns.contains o.year)) ∧
    select data [(("year"), FVal.range a b)] =
      Except.ok (data.filter (fun o => decide (a ≤ o.year) && decide (o.year < b))) ∧
    (∃ e, select data [(("year"), FVal.str s)] = Except.error e) := by
  refine ⟨?_, ?_, ?_, ?_⟩
  · apply select_single_ok
    rw [keep_col_year]
    simp [keep_col_yr, List.map_map, Function.comp]
  · apply select_single_ok
    rw [keep_col_year]
    simp [keep_col_yr, List.map_map, Function.comp]
  · apply select_single_ok
    rw [keep_col_year]
    simp [keep_col_yr, List.map_map, Function.comp]
  · exact ⟨("filtering for years by " ++ s ++ " not supported," ++ "must be int, list or range"),
      select_single_err data ("year") (FVal.str s) _ (by rw [keep_col_year]; rfl)⟩

/-- Loop form of claim C9: a filter item with an unrecognised column name
always drives the mask loop into an error. -/
theorem select_loop_err (data : List Observation) (col : String) (v : FVal)
    (h1 : ¬ col = "model") (h2 : ¬ col = "scenario") (h3 : ¬ col = "region")
    (h4 : ¬ col = "variable") (h5 : ¬ col = "year") :
    ∀ (fs : List (String × FVal)) (keep : List Bool), (col, v) ∈ fs →
      ∃ e, select_mask_loop data fs keep = Except.error e := by
  intro fs
  induction fs with
  | nil => intro keep hmem; exact absurd hmem (List.not_mem_nil _)
  | cons cv rest ih =>
    obtain ⟨c0, v0⟩ := cv
    intro keep hmem
    rcases List.mem_cons.mp hmem with heq | htail
    · injection heq with hc hv
      subst hc
      subst hv
      have hbad : keep_col data col v =
          Except.error ("filter by column " ++ col ++ " not supported") := by
        simp [keep_col, beq_iff_eq, h1, h2, h3, h4, h5]
      exact ⟨("filter by column " ++ col ++ " not supported"),
        by simp [select_mask_loop, hbad]⟩
    · cases hkc : keep_col data c0 v0 with
      | error e => exact ⟨e, by simp [select_mask_loop, hkc]⟩
      | ok kc =>
        obtain ⟨e, he⟩ := ih (List.zipWith and keep kc) htail
        exact ⟨e, by simp [select_mask_loop, hkc, he]⟩

/-- C9.  A filter specification containing an axis name outside
{model, scenario, region, variable, year} makes `select` raise an error:
the unknown axis is never silently ignored. -/
theorem claim9_unknown_axis_error (data : List Observation)
    (filters : List (String × FVal)) (col : String) (v : FVal)
    (hmem : (col, v) ∈ filters)
    (hbad : ¬(col = "model" ∨ col = "scenario" ∨ col = "region" ∨
              col = "variable" ∨ col = "year")) :
    ∃ e, select data filters = Except.error e := by
  push_neg at hbad
  obtain ⟨h1, h2, h3, h4, h5⟩ := hbad
  obtain ⟨e, he⟩ := select_loop_err data col v h1 h2 h3 h4 h5 filters
    (List.replicate data.length true) hmem
  exact ⟨e, by simp [select, he]⟩

/-- Witness for C9: filtering by the `unit` axis fails. -/
theorem claim9_unknown_axis_error_witness :
    ((("unit"), FVal.str ("EJ")) ∈ [(("unit"), FVal.str ("EJ"))]) ∧
    (¬(("unit" : String) = "model" ∨ ("unit" : String) = "scenario" ∨
       ("unit" : String) = "region" ∨ ("unit" : String) = "variable" ∨
       ("unit" : String) = "year")) ∧
    (∃ e, select [] [(("unit"), FVal.str ("EJ"))] = Except.error e) :=
  ⟨by decide, by decide,
    claim9_unknown_axis_error [] [(("unit"), FVal.str ("EJ"))] ("unit")
      (FVal.str ("EJ")) (by decide) (by decide)⟩

/-- C10.  An empty collection as the filter value of a string axis gives an
all-false mask, so `select` returns an empty result rather than imposing no
constraint. -/
theorem claim10_empty_collection_all_false (data : List Observation) (col : String)
    (h : col = "model" ∨ col = "scenario" ∨ col = "region" ∨ col = "variable") :
    keep_col data col (FVal.strList []) = Except.ok (List.replicate data.length false) ∧
    select data [(col, FVal.strList [])] = Except.ok [] := by
  have hmask : keep_col data col (FVal.strList []) =
      Except.ok (List.replicate data.length false) := by
    rcases h with rfl | rfl | rfl | rfl
    · rw [keep_col_model]
      simp [keep_col_match, fval_strings, keep_col_match_loop]
    · rw [keep_col_scenario]
      simp [keep_col_match, fval_strings, keep_col_match_loop]
    · rw [keep_col_region]
      simp [keep_col_match, fval_strings, keep_col_match_loop]
    · rw [keep_col_variable]
      simp [keep_col_match, fval_strings, keep_col_match_loop]
  refine ⟨hmask, ?_⟩
  have hsel := select_single_ok data col (FVal.strList []) (fun _ => false)
    (by rw [hmask, map_const_false])
  rw [hsel]
  simp

/-- Witness for C10: an empty variable list selects nothing. -/
theorem claim10_empty_collection_all_false_witness :
    (("variable" : String) = "model" ∨ ("variable" : String) = "scenario" ∨
     ("variable" : String) = "region" ∨ ("variable" : String) = "variable") ∧
    (keep_col data_cx ("variable") (FVal.strList []) =
       Except.ok (List.replicate data_cx.length false) ∧
     select data_cx [(("variable"), FVal.strList [])] = Except.ok []) :=
  ⟨by decide, claim10_empty_collection_all_false data_cx ("variable") (by decide)⟩

/-! Behaviour of the pseudo-regex matcher on patterns made of plain
literal characters. -/

theorem tok_list_plain (cs : List Char) (h : ∀ c ∈ cs, plain_char c = true) :
    tok_list pseudo_tok cs = some (cs.map RTok.lit) := by
  induction cs with
  | nil => rfl
  | cons c cs ih =>
    have hc := h c (List.mem_cons_self c cs)
    simp only [plain_char, Bool.not_eq_true', Bool.or_eq_false_iff] at hc
    obtain ⟨⟨h1, h2⟩, h3⟩ := hc
    have h4 : c ∉ regex_meta := by simpa using h3
    have hrest := ih (fun d hd => h d (List.mem_cons_of_mem c hd))
    simp [tok_list, pseudo_tok, h1, h2, h4, hrest]

theorem re_match_lits (cs : List Char) : ∀ v : List Char,
    re_match true (cs.map RTok.lit) v = true ↔ (v = cs ∨ v = cs ++ ['\n']) := by
  induction cs with
  | nil =>
    intro v
    match v with
    | [] => simp [re_match, dollar_match]
    | [d] => simp [re_match, dollar_match, beq_iff_eq]
    | d :: e :: t => simp [re_match, dollar_match]
  | cons c cs ih =>
    intro v
    match v with
    | [] => simp [re_match]
    | d :: v2 =>
      by_cases hdc : d = c
      · subst hdc
        simp [re_match, ih v2, List.cons_append]
      · simp [re_match, hdc, beq_iff_eq, List.cons_append]

/-- C2 (amended).  A variable filter string consisting only of plain
characters (no `*`, and none of the regex metacharacters that the source
leaves unescaped) matches exactly the identical variable string, or the
identical string followed by one trailing newline (Python's end anchor also
matches just before a final newline). -/
theorem claim2_plain_filter_exact (col : List String) (s : String)
    (h : ∀ c ∈ s.data, plain_char c = true) :
    keep_col_match col (FVal.str s) true =
      Except.ok (col.map (fun v => decide (v = s) || decide (v = s ++ "\n"))) := by
  have hct : compile_tokens s true = Except.ok (s.data.map RTok.lit) := by
    simp [compile_tokens, tok_list_plain s.data h]
  have hmap : ∀ v : String, re_match true (s.data.map RTok.lit) v.data =
      (decide (v = s) || decide (v = s ++ "\n")) := by
    intro v
    rw [Bool.eq_iff_iff]
    simp only [Bool.or_eq_true, decide_eq_true_eq]
    rw [re_match_lits]
    have hnl : (s ++ "\n").data = s.data ++ ['\n'] := by rw [String.data_append]
    constructor
    · rintro (hv | hv)
      · exact Or.inl (String.ext_iff.mpr hv)
      · exact Or.inr (String.ext_iff.mpr (hnl ▸ hv))
    · rintro (rfl | rfl)
      · exact Or.inl rfl
      · exact Or.inr hnl
  simp only [keep_col_match, fval_strings, keep_col_match_loop, hct]
  rw [zip_or_replicate_false
    (col.map (fun v => re_match true (s.data.map RTok.lit) v.data)) col.length
    (List.length_map col _).symm]
  exact congrArg Except.ok (List.map_congr_left (fun v _ => hmap v))

/-- Counterexample to C2 as stated: the filter string has no `*` and is not
identical to the variable, yet it matches, because the unescaped `.` keeps
its regex meaning. -/
theorem claim2_counterexample :
    keep_col_match [("ab")] (FVal.str ("a.")) true = Except.ok [true] ∧
    (("a.") : String) ≠ ("ab") := by
  refine ⟨?_, by decide⟩
  rfl

/-- Witness for C2 (amended): a plain variable name, bar included, matches
only itself. -/
theorem claim2_plain_filter_exact_witness :
    (∀ c ∈ (("Emissions|CO2") : String).data, plain_char c = true) ∧
    keep_col_match [("Emissions|CO2"), ("Emissions|CH4")]
      (FVal.str ("Emissions|CO2")) true = Except.ok [true, false] := by
  have h : ∀ c ∈ (("Emissions|CO2") : String).data, plain_char c = true := by decide
  exact ⟨h, (claim2_plain_filter_exact [("Emissions|CO2"), ("Emissions|CH4")]
    ("Emissions|CO2") h).trans (congrArg Except.ok (by decide))⟩

/-- C1 (amended).  In satisfying mode with no single-integer year
constraint, `check` returns exactly the entity keys having at least one
satisfying row and whose number of satisfying rows (the groupby count, with
no deduplication of years) equals the number of distinct years of the
filtered, pre-satisfaction selection. -/
theorem claim1_multi_year_row_count (data : List Observation) (v : String)
    (c : CheckSpec) (fs : List (String × FVal)) (d : List Observation)
    (k : String × String)
    (hy : is_year_int c = false) (hd : check_rows data v c fs = Except.ok d) :
    check_keys data v c fs = Except.ok (check_keys_of d c) ∧
    (k ∈ check_keys_of d c ↔
      0 < count_sat d c k ∧ count_sat d c k = num_yr d) := by
  constructor
  · simp [check_keys, hd]
  · simp only [check_keys_of, hy, Bool.false_eq_true, if_false]
    rw [List.mem_filter]
    simp only [List.mem_dedup, List.mem_map]
    constructor
    · rintro ⟨⟨o, ho, rfl⟩, hcnt⟩
      refine ⟨?_, by simpa using hcnt⟩
      rw [count_sat, List.countP_pos_iff]
      exact ⟨o, ho, by simp⟩
    · rintro ⟨hpos, hcnt⟩
      rw [count_sat, List.countP_pos_iff] at hpos
      obtain ⟨o, ho, hk⟩ := hpos
      have hk2 : okey o = k := by simpa using hk
      exact ⟨⟨o, ho, hk2⟩, by simpa using hcnt⟩

/-- Counterexample to C1 as stated: on `data_cx` the entity key is returned
by `check` (two satisfying rows equal the two distinct years of the
selection) although it has a satisfying row in only one of the two distinct
years. -/
theorem claim1_counterexample :
    check_rows data_cx ("V") check_up10 [] = Except.ok data_cx ∧
    check_keys data_cx ("V") check_up10 [] = Except.ok [(("m1"), ("s1"))] ∧
    spec_distinct_sat_years data_cx check_up10 (("m1"), ("s1")) = 1 ∧
    num_yr data_cx = 2 := by
  refine ⟨rfl, rfl, by decide, by decide⟩

/-- Witness for C1 (amended): four queried years, satisfying rows in all
four. -/
theorem claim1_multi_year_row_count_witness :
    is_year_int check_up10 = false ∧
    check_rows data_y4 ("V") check_up10 [] = Except.ok data_y4 ∧
    (check_keys data_y4 ("V") check_up10 [] =
       Except.ok (check_keys_of data_y4 check_up10) ∧
     ((("m1"), ("s1")) ∈ check_keys_of data_y4 check_up10 ↔
       0 < count_sat data_y4 check_up10 (("m1"), ("s1")) ∧
       count_sat data_y4 check_up10 (("m1"), ("s1")) = num_yr data_y4)) := by
  have hy : is_year_int check_up10 = false := by decide
  have hd : check_rows data_y4 ("V") check_up10 [] = Except.ok data_y4 := rfl
  exact ⟨hy, hd, claim1_multi_year_row_count data_y4 ("V") check_up10 [] data_y4
    (("m1"), ("s1")) hy hd⟩

/-- C3.  A row whose value equals the upper bound satisfies the check
(inclusive), a row whose value equals the lower bound does not (exclusive),
and with both bounds present the flag is the conjunction of the two
conditions. -/
theorem claim3_bound_asymmetry (U L v : ℚ) :
    row_is_true ⟨some U, none, none⟩ U = true ∧
    row_is_true ⟨none, some L, none⟩ L = false ∧
    row_is_true ⟨some U, some L, none⟩ v = (decide (v ≤ U) && decide (L < v)) := by
  refine ⟨by simp [row_is_true], by simp [row_is_true], rfl⟩

/-- C4 is violated by the code: a non-empty caller-supplied filters dict is
mutated in place by `check` (the `year` overlay and the forcing of the
variable axis land in the caller's dict), instead of being copied. -/
theorem claim4_filters_mutated :
    check_filters_after c4_filters c4_spec ("V") =
      [(("region"), FVal.str ("World")), (("year"), FVal.int 2010),
       (("variable"), FVal.str ("V"))] ∧
    check_filters_after c4_filters c4_spec ("V") ≠ c4_filters := by
  refine ⟨by decide, by decide⟩

/-! Lemmas about the category assignment table. -/

theorem qualifying_sub (data : List Observation) :
    ∀ (crit : List (String × CheckSpec)) (acc : List (String × String))
      (fs : List (String × FVal)) (q : List (String × String)),
      qualifying_loop data crit acc fs = Except.ok q → q ⊆ acc := by
  intro crit
  induction crit with
  | nil =>
    intro acc fs q h
    simp only [qualifying_loop] at h
    obtain rfl := Except.ok.inj h
    exact fun x hx => hx
  | cons vc rest ih =>
    obtain ⟨v, c⟩ := vc
    intro acc fs q h
    simp only [qualifying_loop] at h
    cases hck : check_keys data v c fs with
    | error e => rw [hck] at h; exact absurd h (by simp)
    | ok ks =>
      rw [hck] at h
      exact (ih _ _ _ h).trans (List.filter_subset' acc)

theorem assign_fst (cat : List ((String × String) × Option String))
    (ks : List (String × String)) (n : String) :
    (assign_cat cat ks n).map Prod.fst = cat.map Prod.fst := by
  simp only [assign_cat, List.map_map]
  exact List.map_congr_left
    (fun p _ => by by_cases hp : p.1 ∈ ks <;> simp [Function.comp, hp])

theorem assign_idem (cat : List ((String × String) × Option String))
    (ks : List (String × String)) (n : String) :
    assign_cat (assign_cat cat ks n) ks n = assign_cat cat ks n := by
  simp only [assign_cat, List.map_map]
  exact List.map_congr_left
    (fun p _ => by by_cases hp : p.1 ∈ ks <;> simp [Function.comp, hp])

theorem assign_find (cat : List ((String × String) × Option String))
    (ks : List (String × String)) (k : String × String) (n : String)
    (hks : k ∈ ks) (hmem : k ∈ cat.map Prod.fst) :
    ((assign_cat cat ks n).find? (fun p => p.1 == k)).map (fun p => p.2) =
      some (some n) := by
  induction cat with
  | nil => simp at hmem
  | cons p rest ih =>
    by_cases hpk : p.1 = k
    · have hin : p.1 ∈ ks := by rw [hpk]; exact hks
      have hhead : assign_cat (p :: rest) ks n =
          (p.1, some n) :: assign_cat rest ks n := by
        simp [assign_cat, hin]
      rw [hhead, List.find?_cons_of_pos]
      · rfl
      · simp [hpk]
    · have hmem2 : k ∈ rest.map Prod.fst := by
        simp only [List.map_cons, List.mem_cons] at hmem
        rcases hmem with h | h
        · exact absurd h.symm hpk
        · exact h
      have hhead : assign_cat (p :: rest) ks n =
          (if p.1 ∈ ks then (p.1, some n) else p) :: assign_cat rest ks n := rfl
      rw [hhead, List.find?_cons_of_neg]
      · exact ih hmem2
      · by_cases hin : p.1 ∈ ks <;> simp [hin, hpk]

theorem category_reduce (df : IamDataFrame) (name : String)
    (crit : List (String × CheckSpec)) (fs : List (String × FVal))
    (ks : List (String × String))
    (hE : crit.isEmpty = false)
    (hq : qualifying_keys df.data (cat_index df) crit fs = Except.ok ks) :
    category df name crit fs =
      (if ks.isEmpty then
        Except.ok (df, some ("No scenario satisfies the criteria"))
       else
        Except.ok (IamDataFrame.mk df.data (assign_cat df.cat ks name),
          some ("The following scenarios are categorized as " ++ name))) := by
  simp only [category, hE, Bool.false_eq_true, if_false]
  rw [hq]

theorem category_reduce_err (df : IamDataFrame) (name : String)
    (crit : List (String × CheckSpec)) (fs : List (String × FVal)) (e : String)
    (hE : crit.isEmpty = false)
    (hq : qualifying_keys df.data (cat_index df) crit fs = Except.error e) :
    category df name crit fs = Except.error e := by
  simp only [category, hE, Bool.false_eq_true, if_false]
  rw [hq]

/-- C5.  When an entity key qualifies for a second category assignment, its
label afterwards is exactly the new category name: the prior label is fully
replaced (the table holds a single label per key). -/
theorem claim5_category_overwrite (df df1 df2 : IamDataFrame) (nA nB : String)
    (cA cB : List (String × CheckSpec)) (fA fB : List (String × FVal))
    (mA mB : Option String) (q : List (String × String)) (K : String × String)
    (hcB : cB ≠ [])
    (h1 : category df nA cA fA = Except.ok (df1, mA))
    (h2 : category df1 nB cB fB = Except.ok (df2, mB))
    (hq : qualifying_keys df1.data (cat_index df1) cB fB = Except.ok q)
    (hK : K ∈ q) :
    cat_label df2 K = some (some nB) := by
  have hE : cB.isEmpty = false := by
    cases cB with
    | nil => exact absurd rfl hcB
    | cons a l => rfl
  have hqne : q ≠ [] := List.ne_nil_of_mem hK
  have hqe : q.isEmpty = false := by
    cases q with
    | nil => exact absurd rfl hqne
    | cons a l => rfl
  rw [category_reduce df1 nB cB fB q hE hq, hqe, if_neg Bool.false_ne_true] at h2
  have hpair := Except.ok.inj h2
  have hdf2 : df2 = IamDataFrame.mk df1.data (assign_cat df1.cat q nB) :=
    (congrArg Prod.fst hpair).symm
  have hsub := qualifying_sub df1.data cB (cat_index df1) fB q hq
  have hKidx : K ∈ df1.cat.map Prod.fst := hsub hK
  rw [hdf2]
  exact assign_find df1.cat q K nB hK hKidx

/-- C6.  When the per-variable satisfying sets intersect to nothing,
`category` mutates nothing: it returns the same frame, informing the caller
that no scenario satisfies the criteria. -/
theorem claim6_empty_intersection_no_mutation (df : IamDataFrame) (name : String)
    (crit : List (String × CheckSpec)) (fs : List (String × FVal))
    (hc : crit ≠ [])
    (hq : qualifying_keys df.data (cat_index df) crit fs = Except.ok []) :
    category df name crit fs =
      Except.ok (df, some ("No scenario satisfies the criteria")) := by
  have hE : crit.isEmpty = false := by
    cases crit with
    | nil => exact absurd rfl hc
    | cons a l => rfl
  rw [category_reduce df name crit fs [] hE hq]
  rfl

/-- C7.  Running the same `category` call twice in succession yields the
same frame (assignment table included) as running it once. -/
theorem claim7_category_idempotent (df df1 df2 : IamDataFrame) (X : String)
    (crit : List (String × CheckSpec)) (m m2 : Option String)
    (h1 : category df X crit [] = Except.ok (df1, m))
    (h2 : category df1 X crit [] = Except.ok (df2, m2)) :
    df2 = df1 := by
  cases hE : crit.isEmpty with
  | true =>
    simp only [category, hE, if_true] at h1 h2
    have hdf1 : df = df1 := congrArg Prod.fst (Except.ok.inj h1)
    have hdf2 : df1 = df2 := congrArg Prod.fst (Except.ok.inj h2)
    rw [← hdf2]
  | false =>
    cases hq : qualifying_keys df.data (cat_index df) crit [] with
    | error e =>
      rw [category_reduce_err df X crit [] e hE hq] at h1
      exact absurd h1 (by simp)
    | ok ks =>
      rw [category_reduce df X crit [] ks hE hq] at h1
      cases hks : ks.isEmpty with
      | true =>
        rw [hks, if_pos rfl] at h1
        have hdf1 : df = df1 := congrArg Prod.fst (Except.ok.inj h1)
        rw [← hdf1] at h2
        rw [category_reduce df X crit [] ks hE hq, hks, if_pos rfl] at h2
        have hdf2 : df = df2 := congrArg Prod.fst (Except.ok.inj h2)
        rw [← hdf2, ← hdf1]
      | false =>
        rw [hks, if_neg Bool.false_ne_true] at h1
        have hdf1 : IamDataFrame.mk df.data (assign_cat df.cat ks X) = df1 :=
          congrArg Prod.fst (Except.ok.inj h1)
        have hdata : df1.data = df.data := by rw [← hdf1]
        have hcat : df1.cat = assign_cat df.cat ks X := by rw [← hdf1]
        have hidx : cat_index df1 = cat_index df := by
          simp only [cat_index, hcat, assign_fst]
        have hq2 : qualifying_keys df1.data (cat_index df1) crit [] =
            Except.ok ks := by rw [hdata, hidx, hq]
        rw [category_reduce df1 X crit [] ks hE hq2, hks,
          if_neg Bool.false_ne_true] at h2
        have hdf2 : IamDataFrame.mk df1.data (assign_cat df1.cat ks X) = df2 :=
          congrArg Prod.fst (Except.ok.inj h2)
        rw [← hdf2, ← hdf1]
        simp [assign_idem]

/-- Witness for C5: the key is assigned to A, then re-qualified and
assigned to B, and its final label is B. -/
theorem claim5_category_overwrite_witness :
    crit_up20 ≠ [] ∧
    category df0_w ("A") crit_up10 [] =
      Except.ok (df1_a, some ("The following scenarios are categorized as A")) ∧
    category df1_a ("B") crit_up20 [] =
      Except.ok (df2_b, some ("The following scenarios are categorized as B")) ∧
    qualifying_keys df1_a.data (cat_index df1_a) crit_up20 [] =
      Except.ok [(("m1"), ("s1"))] ∧
    ((("m1"), ("s1")) ∈ [((("m1") : String), (("s1") : String))]) ∧
    cat_label df2_b (("m1"), ("s1")) = some (some ("B")) := by
  have hcB : crit_up20 ≠ [] := by decide
  have h1 : category df0_w ("A") crit_up10 [] =
      Except.ok (df1_a, some ("The following scenarios are categorized as A")) := rfl
  have h2 : category df1_a ("B") crit_up20 [] =
      Except.ok (df2_b, some ("The following scenarios are categorized as B")) := rfl
  have hq : qualifying_keys df1_a.data (cat_index df1_a) crit_up20 [] =
      Except.ok [(("m1"), ("s1"))] := rfl
  have hK : (("m1"), ("s1")) ∈ [((("m1") : String), (("s1") : String))] := by decide
  exact ⟨hcB, h1, h2, hq, hK,
    claim5_category_overwrite df0_w df1_a df2_b ("A") ("B") crit_up10 crit_up20
      [] [] (some ("The following scenarios are categorized as A"))
      (some ("The following scenarios are categorized as B"))
      [(("m1"), ("s1"))] (("m1"), ("s1")) hcB h1 h2 hq hK⟩

/-- Witness for C6: unsatisfiable criteria leave the frame untouched. -/
theorem claim6_empty_intersection_no_mutation_witness :
    crit_none ≠ [] ∧
    qualifying_keys df0_w.data (cat_index df0_w) crit_none [] = Except.ok [] ∧
    category df0_w ("C") crit_none [] =
      Except.ok (df0_w, some ("No scenario satisfies the criteria")) := by
  have hc : crit_none ≠ [] := by decide
  have hq : qualifying_keys df0_w.data (cat_index df0_w) crit_none [] =
      Except.ok [] := rfl
  exact ⟨hc, hq, claim6_empty_intersection_no_mutation df0_w ("C") crit_none [] hc hq⟩

/-- Witness for C7: assigning category X twice gives the frame of the first
assignment. -/
theorem claim7_category_idempotent_witness :
    category df0_w ("X") crit_up10 [] =
      Except.ok (df1_x, some ("The following scenarios are categorized as X")) ∧
    category df1_x ("X") crit_up10 [] =
      Except.ok (df1_x, some ("The following scenarios are categorized as X")) ∧
    df1_x = df1_x := by
  have h1 : category df0_w ("X") crit_up10 [] =
      Except.ok (df1_x, some ("The following scenarios are categorized as X")) := rfl
  have h2 : category df1_x ("X") crit_up10 [] =
      Except.ok (df1_x, some ("The following scenarios are categorized as X")) := rfl
  exact ⟨h1, h2, claim7_category_idempotent df0_w df1_x df1_x ("X") crit_up10
    (some ("The following scenarios are categorized as X"))
    (some ("The following scenarios are categorized as X")) h1 h2⟩

end Pyam
